import Mathlib

/-!
# Verification of the PKCS11 credential locator & session resolution engine

Shallow embedding of `pkcs11_cryptography_keys` (the locator parser
`PKCS11URI.parse`, the session resolver `PKCS11URI.get_session`, the object
locators `get_key` / `get_private_key`, the legacy session slot selection in
`PKCS11KeySession.open` / `PKCS11AdminSession.open`, and the capability
deriver `read_key_usage_from_key`), together with theorems settling the
specification's claims about them.

Python-level conventions reproduced here:
* Python dicts with string keys become insertion-ordered association lists
  `List (String × String)`; assignment `d[k] = v` overwrites in place.
* `str.find` returns an index or `-1`, modelled as `Int`.
* Python slices `s[i:j]` (including negative indices) are modelled by
  `pySlice`.
* Exceptions become `Except` errors, one constructor per raise site.
-/

set_option autoImplicit false

namespace PKCS11

/-- First index of character `c` in `l`, or `-1` — Python's `str.find`. -/
def pyFind (l : List Char) (c : Char) : Int :=
  match l.findIdx? (· = c) with
  | some i => (i : Int)
  | none => -1

/-- Normalise a Python slice endpoint: negative indices count from the end,
results are clamped into `[0, len]`. -/
def pyIdx (len : Nat) (i : Int) : Nat :=
  if i < 0 then ((len : Int) + i).toNat else min i.toNat len

/-- Python's `l[i:j]` on a list of characters. -/
def pySlice (l : List Char) (i j : Int) : List Char :=
  (l.take (pyIdx l.length j)).drop (pyIdx l.length i)

/-- Python's `l[i:]` (slice to the end). -/
def pySliceFrom (l : List Char) (i : Int) : List Char :=
  l.drop (pyIdx l.length i)

/-- Hexadecimal digit value, if the character is a hex digit. -/
def hexVal (c : Char) : Option Nat :=
  if '0' ≤ c ∧ c ≤ '9' then some (c.toNat - '0'.toNat)
  else if 'a' ≤ c ∧ c ≤ 'f' then some (c.toNat - 'a'.toNat + 10)
  else if 'A' ≤ c ∧ c ≤ 'F' then some (c.toNat - 'A'.toNat + 10)
  else none

/-- `urllib.parse.unquote` on the single-byte (ASCII) fragment of its domain:
`%XY` with two hex digits becomes the character with code `16*X + Y`, any
other `%` is kept literally.  (The inputs appearing in this development only
contain single-byte escapes, where Python's UTF-8 post-decoding is the
identity.) -/
def unquoteChars : List Char → List Char
  | [] => []
  | '%' :: h1 :: h2 :: rest2 =>
    match hexVal h1, hexVal h2 with
    | some v1, some v2 => Char.ofNat (16 * v1 + v2) :: unquoteChars rest2
    | _, _ => '%' :: unquoteChars (h1 :: h2 :: rest2)
  | c :: rest => c :: unquoteChars rest

/-- `urllib.parse.unquote` as a `String → String` function. -/
def unquote (s : String) : String :=
  String.mk (unquoteChars s.data)

/-- Python's `str.strip()`: drop whitespace from both ends.  (Python strips
all Unicode whitespace; the device fields stripped in this code are padded
with plain spaces, for which ASCII whitespace is exact.) -/
def pyStrip (s : String) : String :=
  String.mk
    (((s.data.dropWhile Char.isWhitespace).reverse.dropWhile
      Char.isWhitespace).reverse)

/-- Python dict assignment `d[k] = v` on an insertion-ordered association
list: overwrite an existing key in place, otherwise append. -/
def dictInsert (m : List (String × String)) (k v : String) :
    List (String × String) :=
  if m.any (fun p => p.1 = k) then
    m.map (fun p => if p.1 = k then (k, v) else p)
  else m ++ [(k, v)]

/-- First-occurrence lookup in an association list (Python `k in d` / `d[k]`
coincide with this when keys are unique, which dict insertion guarantees). -/
def alookup {α β : Type} [DecidableEq α] (m : List (α × β)) (k : α) :
    Option β :=
  (m.find? (fun p => p.1 = k)).map (·.2)

/-- Python's `str.partition(sep)` restricted to a single-character separator:
the part before the first occurrence and the part after it (`("s", "")` when
absent). -/
def pyPartition (l : List Char) (c : Char) : List Char × List Char :=
  match l.findIdx? (· = c) with
  | some i => (l.take i, l.drop (i + 1))
  | none => (l, [])

/-! ## The regex split `(.+?)(\?.+?)?(#.+)?$`

`parse` first matches the whole URI against this pattern.  The lazy groups
with the `$` anchor mean: group 1 is the shortest nonempty prefix such that
the remainder can be split into an optional `?`-introduced nonempty group 2
followed by an optional `#`-introduced nonempty group 3 reaching the end.
We reproduce the backtracking order of the regex engine literally. -/

/-- Match `(#.+)?$` against `v`: succeeds with `none` when `v` is empty and
with `some v` when `v` is `#` followed by at least one character. -/
def g3match (v : List Char) : Option (Option (List Char)) :=
  match v with
  | [] => some none
  | '#' :: w => if w = [] then none else some ('#' :: w)
  | _ => none

/-- Lazy scan for group 2's body: the shortest nonempty prefix of `rest`
(accumulated onto `taken`) whose remainder matches `(#.+)?$`. -/
def g2split (taken rest : List Char) :
    Option (List Char × Option (List Char)) :=
  match rest with
  | [] => none
  | c :: cs =>
    match g3match cs with
    | some g3 => some (taken ++ [c], g3)
    | none => g2split (taken ++ [c]) cs

/-- Match `(\?.+?)?(#.+)?$` against `t` (the regex engine first tries both
optional groups empty). -/
def tailMatch (t : List Char) :
    Option (Option (List Char) × Option (List Char)) :=
  match t with
  | [] => some (none, none)
  | '#' :: w => if w = [] then none else some (none, some ('#' :: w))
  | '?' :: cs =>
    (g2split [] cs).map (fun p => (some ('?' :: p.1), p.2))
  | _ => none

/-- Lazy scan for group 1: the shortest nonempty prefix of `rest` whose
remainder matches the tail pattern.  Returns the three groups. -/
def g1split (taken rest : List Char) :
    Option (List Char × Option (List Char) × Option (List Char)) :=
  match rest with
  | [] => none
  | c :: cs =>
    match tailMatch cs with
    | some (g2, g3) => some (taken ++ [c], g2, g3)
    | none => g1split (taken ++ [c]) cs

/-! ## `PKCS11URI.parse` -/

/-- One error constructor per raise site of `PKCS11URI.parse`
(`pkcs11_URI.py`).  The spec's taxonomy names `badLocation`, `badQuery` and
`badQueryInURI` collectively `MalformedLocator`, and `notAnURI`
`NotALocator`. -/
inductive ParseErr where
  | badLocation
  | badQuery
  | badQueryInURI
  | notParsedProperly
  | notAnURI
  deriving DecidableEq, Repr

/-- A parsed locator: the `location` and `query` attribute maps
(`PKCS11URI.__init__`). -/
structure PKCS11URI where
  location : List (String × String)
  query : List (String × String)
  deriving DecidableEq, Repr

/-- One iteration step plus recursion of the attribute-pair loop of
`PKCS11URI.parse` (lines 93–105 for the scheme segment, 111–121 for the
query segment — the two loops are identical up to the raised message,
selected by `err`): repeatedly split at the first `;` / first `=`,
percent-decode the value, and store the pair.  The `while True` loop is
driven by a fuel counter so that the recursion is structural (and hence
kernel-evaluable); each iteration consumes at least one character of
`rest`, so `rest.length + 1` steps always suffice (`pairLoopAux_fuel` below
makes the fuel irrelevance precise), and the fuel-exhaustion branch is
unreachable from `pairLoop`. -/
def pairLoopAux (err : ParseErr) :
    Nat → List (String × String) → List Char →
      Except ParseErr (List (String × String))
  | 0, _, _ => .error err
  | fuel + 1, m, rest =>
    let a := pyFind rest ';'
    let b := pyFind rest '='
    if 0 < a ∧ a < b then
      .error err
    else if a < 0 then
      .ok (dictInsert m (String.mk (pySlice rest 0 b))
        (unquote (String.mk (pySliceFrom rest (b + 1)))))
    else
      pairLoopAux err fuel
        (dictInsert m (String.mk (pySlice rest 0 b))
          (unquote (String.mk (pySlice rest (b + 1) a))))
        (pySliceFrom rest (a + 1))

/-- The attribute-pair loop of `PKCS11URI.parse`, with enough fuel for the
input. -/
def pairLoop (err : ParseErr) (m : List (String × String))
    (rest : List Char) : Except ParseErr (List (String × String)) :=
  pairLoopAux err (rest.length + 1) m rest


/-- `PKCS11URI.parse` (`pkcs11_URI.py` lines 78–129).  The regex groups are
computed by `g1split`; a failed overall match is the `notAnURI` raise.  A
scheme other than `pkcs11:` (or an empty remainder after the scheme) yields
the empty locator immediately, skipping the query segment entirely. -/
def parse (uri : String) : Except ParseErr PKCS11URI :=
  match g1split [] uri.data with
  | none => .error .notAnURI
  | some (g0, g1, _g2) =>
    let (schemaC, restC) := pyPartition g0 ':'
    let schema := String.mk schemaC
    if schema = "pkcs11" ∧ 0 < (pyStrip (String.mk restC)).length then
      match pairLoop .badLocation [] restC with
      | .error e => .error e
      | .ok location =>
        match g1 with
        | some q =>
          -- `g[1].startswith("?")` holds by construction of group 2,
          -- but the source checks it; the else branch is `badQueryInURI`.
          if q.head? = some '?' then
            match pairLoop .badQuery [] (q.drop 1) with
            | .error e => .error e
            | .ok query => .ok ⟨location, query⟩
          else .error .badQueryInURI
        | none => .ok ⟨location, []⟩
    else
      .ok ⟨[], []⟩

/-! ## PKCS#11 constants (values from the PKCS#11 standard, as imported
from `PyKCS11` by the source) -/

def CKA_CLASS : Nat := 0x000
def CKA_PRIVATE : Nat := 0x002
def CKA_LABEL : Nat := 0x003
def CKA_ID : Nat := 0x102
def CKA_KEY_TYPE : Nat := 0x100
def CKA_ENCRYPT : Nat := 0x104
def CKA_DECRYPT : Nat := 0x105
def CKA_WRAP : Nat := 0x106
def CKA_UNWRAP : Nat := 0x107
def CKA_SIGN : Nat := 0x108
def CKA_SIGN_RECOVER : Nat := 0x109
def CKA_VERIFY : Nat := 0x10A
def CKA_VERIFY_RECOVER : Nat := 0x10B
def CKA_DERIVE : Nat := 0x10C
def CKO_DATA : Nat := 0x0
def CKO_CERTIFICATE : Nat := 0x1
def CKO_PUBLIC_KEY : Nat := 0x2
def CKO_PRIVATE_KEY : Nat := 0x3
def CKO_SECRET_KEY : Nat := 0x4
def CKF_LOGIN_REQUIRED : Nat := 0x4

/-! ## Attribute values and the device model

The device runtime (`PyKCS11`) is the external collaborator: slots, token /
slot / session info records and object attribute stores are modelled as
read-only data.  Attribute values carried in search templates and attribute
reads are strings, byte lists, integers (object classes, key types) or
booleans (capability bits). -/

inductive AttrVal where
  | str (s : String)
  | bytes (b : List Nat)
  | num (n : Nat)
  | bool (b : Bool)
  deriving DecidableEq, Repr

/-- A slot together with its token, as enumerated by
`getSlotList(tokenPresent=True)`: the descriptive info records are maps
from PyKCS11 field name (the `ck_tag` of the translation tables) to the raw
string value, `flags` is the token flag word, `sessionFields` is what
`getSessionInfo()` reports for a session opened on this slot, and `loginOk`
tells whether `session.login` succeeds (a login failure raises a device
error). -/
structure SlotData where
  slotFields : List (String × String)
  tokenFields : List (String × String)
  flags : Nat
  sessionFields : List (String × String)
  loginOk : Bool
  deriving DecidableEq, Repr, Inhabited

/-- The loaded PKCS#11 library: its own info record plus the enumerated
slots.  (`library.load` / `module-path` selection only decides which
`Device` value is in hand, so it is a parameter here.) -/
structure Device where
  libFields : List (String × String)
  slots : List SlotData
  deriving DecidableEq, Repr

/-- Read a field of an info record (`info.__dict__[ck_tag]`); the real
records always carry the fields named by the translation tables. -/
def fieldOf (fields : List (String × String)) (ck : String) : String :=
  (alookup fields ck).getD ""

/-! ## Translation tables

Modelled from the spec: the module `definitions.py`, which holds
`CK_INFO_translation`, `CK_SLOT_INFO_translation`,
`CK_TOKEN_INFO_translation`, `CK_SESSION_INFO_translation` and
`PKCS11_type_translation`, is not among the provided sources.  §6 of the
spec fixes their content: recognized location attribute names map to
library / slot / token / session descriptor fields (the PKCS#11 URI
attribute names listed in the source's comment block, lines 66–76), and
`type` maps over `{public, private, cert, secret-key, data}` to the object
class enumeration. -/

def CK_INFO_translation : List (String × String) :=
  [("library-description", "libraryDescription"),
   ("library-manufacturer", "manufacturerID")]

def CK_SLOT_INFO_translation : List (String × String) :=
  [("slot-description", "slotDescription"),
   ("slot-manufacturer", "manufacturerID")]

def CK_TOKEN_INFO_translation : List (String × String) :=
  [("token", "label"),
   ("manufacturer", "manufacturerID"),
   ("serial", "serialNumber"),
   ("model", "model")]

def CK_SESSION_INFO_translation : List (String × String) :=
  [("slot-id", "slotID")]

def PKCS11_type_translation : List (String × Nat) :=
  [("public", CKO_PUBLIC_KEY),
   ("private", CKO_PRIVATE_KEY),
   ("cert", CKO_CERTIFICATE),
   ("secret-key", CKO_SECRET_KEY),
   ("data", CKO_DATA)]

/-! ## `PKCS11URI.get_session` (`pkcs11_URI.py` lines 131–225) -/

/-- One error constructor per failure site of `get_session`, named as in
the spec's §7 taxonomy. -/
inductive GErr where
  | libraryMismatch
  | sessionAttributeMismatch
  | loginRequiredNoPin
  | loginFailure
  deriving DecidableEq, Repr

/-- The observable result of one `get_session` resolution: the returned
session (`none` when no slot matched — the source returns `None` rather
than raising) or the propagated error, together with the device's
open-session count after the call, whether `session.login` was invoked,
and the final accumulated `login_required` flag. -/
structure GsResult where
  outcome : Except GErr (Option Nat)
  openCount : Nat
  loginCalled : Bool
  loginRequiredFlag : Bool
  deriving Repr

/-- Library-info validation (lines 139–147): every location attribute
recognized as a library field must equal the stripped info field. -/
def libFieldsOk (dev : Device) (location : List (String × String)) : Bool :=
  location.all fun kv =>
    match alookup CK_INFO_translation kv.1 with
    | some ck => kv.2 = pyStrip (fieldOf dev.libFields ck)
    | none => true

/-- The token-info half of one inner-loop iteration (the second `if` of
lines 166–173), applied to the token-table lookup result: `.inl` is the
Python `break` (carrying the final `(found, slot)` state), `.inr`
continues with the state `st` it was entered with. -/
def tagStepToken (cur : Nat × SlotData) (v : String)
    (st : Bool × Option (Nat × SlotData)) :
    Option String →
      Sum (Bool × Option (Nat × SlotData)) (Bool × Option (Nat × SlotData))
  | some ck2 =>
    if v ≠ pyStrip (fieldOf cur.2.tokenFields ck2) then .inl (true, none)
    else .inr (true, some cur)
  | none => .inr st

/-- The slot-info half of one inner-loop iteration (the first `if`, lines
158–165), applied to the slot-table lookup result; when it does not break
it falls through to the token check with the state it produced, exactly as
the two consecutive `if` statements do. -/
def tagStepSlot (cur : Nat × SlotData) (v : String)
    (st : Bool × Option (Nat × SlotData)) (tokLookup : Option String) :
    Option String →
      Sum (Bool × Option (Nat × SlotData)) (Bool × Option (Nat × SlotData))
  | some ck =>
    if v ≠ pyStrip (fieldOf cur.2.slotFields ck) then .inl (true, none)
    else tagStepToken cur v (true, some cur) tokLookup
  | none => tagStepToken cur v st tokLookup

/-- One step of the inner attribute loop (lines 157–173) for one location
attribute. -/
def tagStep (cur : Nat × SlotData) (tag v : String)
    (found : Bool) (slot : Option (Nat × SlotData)) :
    Sum (Bool × Option (Nat × SlotData)) (Bool × Option (Nat × SlotData)) :=
  tagStepSlot cur v (found, slot)
    (alookup CK_TOKEN_INFO_translation tag)
    (alookup CK_SLOT_INFO_translation tag)

/-- The inner attribute loop over the location attributes for one slot. -/
def tagLoop (cur : Nat × SlotData) :
    List (String × String) → Bool → Option (Nat × SlotData) →
      Bool × Option (Nat × SlotData)
  | [], found, slot => (found, slot)
  | kv :: rest, found, slot =>
    match tagStep cur kv.1 kv.2 found slot with
    | .inl r => r
    | .inr (f, s) => tagLoop cur rest f s

/-- The slot enumeration loop (lines 148–179): accumulate the
`login_required` flag across every token inspected, run the attribute
match, break on the first full match, continue (with `slot` reset to
`none`) on a mismatch.  `i` numbers the slots in enumeration order. -/
def slotLoop (location : List (String × String)) :
    Nat → List SlotData → Option (Nat × SlotData) → Bool →
      Option (Nat × SlotData) × Bool
  | _, [], slot, lr => (slot, lr)
  | i, sd :: rest, slot, lr =>
    let lr1 := if sd.flags &&& CKF_LOGIN_REQUIRED ≠ 0 then true else lr
    match tagLoop (i, sd) location false slot with
    | (found, slot1) =>
      if found then
        match slot1 with
        | none => slotLoop location (i + 1) rest none lr1
        | some sel => (some sel, lr1)
      else slotLoop location (i + 1) rest slot1 lr1

/-- Session-info validation after opening (lines 184–195); note the source
compares the raw session field, with no `.strip()` here. -/
def sessionFieldsBad (sd : SlotData) (location : List (String × String)) :
    Bool :=
  location.any fun kv =>
    match alookup CK_SESSION_INFO_translation kv.1 with
    | some ck => kv.2 ≠ fieldOf sd.sessionFields ck
    | none => false

/-- `PKCS11URI.get_session`.  `interactivePin` models what the interactive
`input("Please enter PIN:")` call yields — the spec's
`pinProvider: () -> string | none` collaborator; `none` is the environment
with no interactive provider.  The prompt text differs with `normUser` and
login is submitted with `CKU_SO` for the security officer, which the
device model folds into `SlotData.loginOk`; the mechanism enumeration of
lines 217–224 only fills the `_operations` cache and does not affect the
result, the session state or the error behaviour, so it is not modelled.
Opening a session raises the count to 1; `closeSession` (line 189) brings
it back to 0. -/
def get_session (dev : Device) (uri : PKCS11URI) (normUser : Bool)
    (interactivePin : Option String) : GsResult :=
  if ¬ libFieldsOk dev uri.location then
    ⟨.error .libraryMismatch, 0, false, false⟩
  else
    match slotLoop uri.location 0 dev.slots none false with
    | (none, lr) => ⟨.ok none, 0, false, lr⟩
    | (some (i, sd), lr) =>
      if sessionFieldsBad sd uri.location then
        ⟨.error .sessionAttributeMismatch, 0, false, lr⟩
      else
        let pin0 : Option String := alookup uri.query "pin-value"
        if lr then
          match (match pin0 with
                 | some p => some p
                 | none => interactivePin) with
          | some _ =>
            if sd.loginOk then ⟨.ok (some i), 1, true, lr⟩
            else ⟨.error .loginFailure, 1, true, lr⟩
          | none => ⟨.error .loginRequiredNoPin, 1, false, lr⟩
        else ⟨.ok (some i), 1, false, lr⟩

/-! ## Object locator: `get_key` and `get_private_key`
(`pkcs11_URI.py` lines 231–299) -/

/-- An object stored on the token: opaque handle plus its attribute
store. -/
structure PKObject where
  handle : Nat
  attrs : List (Nat × AttrVal)
  deriving DecidableEq, Repr

/-- An open session's view of token object storage for `findObjects` /
`getAttributeValue`, in device enumeration order. -/
structure ObjSession where
  objects : List PKObject
  deriving DecidableEq, Repr

/-- `session.findObjects(template)` match: every template attribute equals
the stored attribute. -/
def objMatches (template : List (Nat × AttrVal)) (o : PKObject) : Bool :=
  template.all fun kv => alookup o.attrs kv.1 = some kv.2

/-- `session.getAttributeValue(handle, [a])` for one attribute; the real
device answers every queried attribute, absence is modelled as a zero
word. -/
def attrValue (o : PKObject) (k : Nat) : AttrVal :=
  (alookup o.attrs k).getD (.num 0)

/-- UTF-8 encoding of one character as bytes. -/
def utf8EncodeCharNat (c : Char) : List Nat :=
  let v := c.toNat
  if v < 0x80 then [v]
  else if v < 0x800 then
    [0xC0 ||| (v >>> 6), 0x80 ||| (v &&& 0x3F)]
  else if v < 0x10000 then
    [0xE0 ||| (v >>> 12), 0x80 ||| ((v >>> 6) &&& 0x3F),
     0x80 ||| (v &&& 0x3F)]
  else
    [0xF0 ||| (v >>> 18), 0x80 ||| ((v >>> 12) &&& 0x3F),
     0x80 ||| ((v >>> 6) &&& 0x3F), 0x80 ||| (v &&& 0x3F)]

/-- Python `bytes(value, "UTF-8")` (used by `__get_id_value`). -/
def utf8Bytes (s : String) : List Nat :=
  s.data.foldr (fun c acc => utf8EncodeCharNat c ++ acc) []

/-- Python `bytes(x)` applied to attribute-read results: byte sequences
stay themselves, strings are UTF-8 encoded, an integer `n` yields `n` zero
bytes (Python `bytes(int)` semantics, `bool` being an `int`). -/
def pyBytes : AttrVal → List Nat
  | .bytes b => b
  | .str s => utf8Bytes s
  | .num n => List.replicate n 0
  | .bool b => List.replicate (if b then 1 else 0) 0

/-- `self._PKCS11_key_translation` (`PKCS11URI.__init__`): locator
attribute name to PKCS#11 attribute code plus value conversion
(`__get_object_value` is the identity on the string, `__get_id_value` is
UTF-8 `bytes`, `__get_type_value` looks the name up in
`PKCS11_type_translation` and may yield `None`). -/
def PKCS11_key_translation (tag : String) :
    Option (Nat × (String → Option AttrVal)) :=
  if tag = "object" then
    some (CKA_LABEL, fun v => some (.str v))
  else if tag = "id" then
    some (CKA_ID, fun v => some (.bytes (utf8Bytes v)))
  else if tag = "type" then
    some (CKA_CLASS,
      fun v => (alookup PKCS11_type_translation v).map AttrVal.num)
  else none

/-- `get_key`'s search template (lines 232–240): every location attribute
recognized as an object field contributes one entry, skipped when the
conversion yields `None`. -/
def buildKeyTemplate (location : List (String × String)) :
    List (Nat × AttrVal) :=
  location.foldl
    (fun tpl kv =>
      match PKCS11_key_translation kv.1 with
      | some (key, operation) =>
        match operation kv.2 with
        | some val => tpl ++ [(key, val)]
        | none => tpl
      | none => tpl)
    []

/-- The observable result of `get_key`: the returned triple plus the
number of ambiguity messages printed (line 247). -/
structure KeyResult where
  keyid : Option (List Nat)
  keyType : Option AttrVal
  handle : Option Nat
  warnings : Nat
  deriving DecidableEq, Repr

/-- `PKCS11URI.get_key` (lines 231–253). -/
def get_key (uri : PKCS11URI) (session : Option ObjSession) : KeyResult :=
  let template := buildKeyTemplate uri.location
  match session with
  | some s =>
    if 0 < template.length then
      match s.objects.filter (objMatches template) with
      | [] => ⟨none, none, none, 0⟩
      | key :: restObjs =>
        ⟨some (pyBytes (attrValue key CKA_ID)),
         some (attrValue key CKA_KEY_TYPE),
         some key.handle,
         if 0 < restObjs.length then 1 else 0⟩
    else ⟨none, none, none, 0⟩
  | none => ⟨none, none, none, 0⟩

/-- Loop state of `get_private_key`'s template construction (lines
258–277): the search template, the `found` flag recording that a `type`
attribute was seen, and the `keyid` / `label` values echoed from the
locator. -/
structure PvtAcc where
  template : List (Nat × AttrVal)
  found : Bool
  keyid : Option (List Nat)
  label : Option AttrVal
  deriving DecidableEq, Repr

/-- One iteration of `get_private_key`'s attribute loop: a `type`
attribute is overridden to `"private"` and sets `found`; `object` / `id`
record their converted values into `label` / `keyid`; any successfully
converted value is appended to the template. -/
def pvtStep (acc : PvtAcc) (kv : String × String) : PvtAcc :=
  match PKCS11_key_translation kv.1 with
  | some (key, operation) =>
    if kv.1 = "type" then
      match operation "private" with
      | some val =>
        { acc with found := true, template := acc.template ++ [(key, val)] }
      | none => { acc with found := true }
    else
      let acc1 :=
        if kv.1 = "object" then { acc with label := some (.str kv.2) }
        else if kv.1 = "id" then
          { acc with keyid := some (utf8Bytes kv.2) }
        else acc
      match operation kv.2 with
      | some val => { acc1 with template := acc1.template ++ [(key, val)] }
      | none => acc1
  | none => acc

/-- The completed loop state of `get_private_key`, including the
`if not found` fallback (lines 278–284) that appends the private-key class
entry when no `type` attribute was present. -/
def pvtAccFinal (location : List (String × String)) : PvtAcc :=
  let acc := location.foldl pvtStep ⟨[], false, none, none⟩
  if acc.found then acc
  else
    match PKCS11_key_translation "type" with
    | some (key, operation) =>
      match operation "private" with
      | some val => { acc with template := acc.template ++ [(key, val)] }
      | none => acc
    | none => acc

/-- The observable result of `get_private_key`: the returned quadruple
plus the number of ambiguity messages printed (line 290). -/
structure PvtResult where
  keyid : Option (List Nat)
  label : Option AttrVal
  keyType : Option AttrVal
  handle : Option Nat
  warnings : Nat
  deriving DecidableEq, Repr

/-- `PKCS11URI.get_private_key` (lines 255–299).  On success `keyid`,
`label` and `keyType` are re-read from the found object; on the no-match
(or no-session / empty-template) paths the function falls through to
`return keyid, label, None, None` with the locator-echoed values. -/
def get_private_key (uri : PKCS11URI) (session : Option ObjSession) :
    PvtResult :=
  let acc := pvtAccFinal uri.location
  match session with
  | some s =>
    if 0 < acc.template.length then
      match s.objects.filter (objMatches acc.template) with
      | [] => ⟨acc.keyid, acc.label, none, none, 0⟩
      | key :: restObjs =>
        ⟨some (pyBytes (attrValue key CKA_ID)),
         some (attrValue key CKA_LABEL),
         some (attrValue key CKA_KEY_TYPE),
         some key.handle,
         if 0 < restObjs.length then 1 else 0⟩
    else ⟨acc.keyid, acc.label, none, none, 0⟩
  | none => ⟨acc.keyid, acc.label, none, none, 0⟩

/-! ## Capability model and deriver
(`card_token/PKCS11_key_definition.py`) -/

/-- `KeyObjectTypes` (the `private` constructor needs guillemets because
`private` is a Lean keyword). -/
inductive KeyObjectTypes where
  | «private»
  | public
  | certificate
  deriving DecidableEq, Repr

/-- `OperationTypes`. -/
inductive OperationTypes where
  | CRYPT
  | SIGN
  | WRAP
  | DERIVE
  | RECOVER
  deriving DecidableEq, Repr

/-- `_key_classes`: object class code → class tag. -/
def _key_classes : List (Nat × KeyObjectTypes) :=
  [(CKO_PRIVATE_KEY, .«private»),
   (CKO_PUBLIC_KEY, .public),
   (CKO_CERTIFICATE, .certificate)]

/-- `_key_usage`: per class tag, the operation-kind → capability-bit
dictionary in its insertion order; the source dictionary has no entry for
`certificate`, so `_key_usage[tag]` is a `KeyError` there, modelled by
`none`. -/
def _key_usage (t : KeyObjectTypes) :
    Option (List (OperationTypes × Nat)) :=
  match t with
  | .«private» =>
    some [(.CRYPT, CKA_DECRYPT), (.SIGN, CKA_SIGN), (.WRAP, CKA_UNWRAP),
          (.DERIVE, CKA_DERIVE), (.RECOVER, CKA_SIGN_RECOVER)]
  | .public =>
    some [(.CRYPT, CKA_ENCRYPT), (.SIGN, CKA_VERIFY), (.WRAP, CKA_WRAP),
          (.RECOVER, CKA_VERIFY_RECOVER)]
  | .certificate => none

/-- `str(k).replace("OperationTypes.", "").lower()` for each operation
kind. -/
def opName : OperationTypes → String
  | .CRYPT => "crypt"
  | .SIGN => "sign"
  | .WRAP => "wrap"
  | .DERIVE => "derive"
  | .RECOVER => "recover"

/-- `PKCS11KeyUsage.__init__` stores the five keyword arguments (raw
attribute-read values) into `_usage`; `derive` is optional with default
`None`. -/
structure PKCS11KeyUsage where
  crypt : AttrVal
  sign : AttrVal
  wrap : AttrVal
  derive : Option AttrVal
  recover : AttrVal
  deriving DecidableEq, Repr

/-- The uncaught runtime errors possible in `read_key_usage_from_key`:
`_key_usage[tag]` on a class missing from the table (`KeyError`), and
`PKCS11KeyUsage(**rezult)` with a required keyword missing
(`TypeError`). -/
inductive PyRunError where
  | keyError
  | typeError
  deriving DecidableEq, Repr

/-- `PKCS11KeyUsage(**rezult)`: keyword construction from the zipped read
dictionary. -/
def mkUsageKw (rezult : List (String × AttrVal)) : Option PKCS11KeyUsage :=
  match alookup rezult "crypt", alookup rezult "sign",
      alookup rezult "wrap", alookup rezult "recover" with
  | some c, some s, some w, some r =>
    some ⟨c, s, w, alookup rezult "derive", r⟩
  | _, _, _, _ => none

/-- `read_key_usage_from_key` (lines 122–140): read the object's class,
translate it through `_key_classes` (unknown class → `None`), batch-read
the capability bits listed for the class and build the usage record via
keyword passing. -/
def read_key_usage_from_key (o : PKObject) :
    Except PyRunError (Option PKCS11KeyUsage) :=
  match alookup o.attrs CKA_CLASS with
  | some (.num c) =>
    match alookup _key_classes c with
    | some tag =>
      match _key_usage tag with
      | some entries =>
        let atr_template := entries.map (·.2)
        let usage_list := entries.map (fun e => opName e.1)
        let attrs := atr_template.map
          (fun k => (alookup o.attrs k).getD (.num 0))
        let rezult := usage_list.zip attrs
        match mkUsageKw rezult with
        | some u => .ok (some u)
        | none => .error .typeError
      | none => .error .keyError
    | none => .ok none
  | some _ => .ok none
  | none => .ok none

/-! ## Legacy (non-locator) session slot selection
(`sessions/PKCS11_key_session.py` lines 54–65 and
`sessions/PKCS11_admin_session.py` lines 79–90, which contain the
identical loop) -/

/-- The legacy `open` slot loop: iterate the enumerated slots, accumulate
the login-required flag, take the current slot whenever `token_label` is
`None`, and break on a stripped-label match (`ti.label.strip() ==
self._token_label`, which is never true when `token_label` is `None`).
`i` numbers the slots in enumeration order; the pair returned is the
selected slot and the accumulated `login_required`. -/
def legacyLoop (tokenLabel : Option String) :
    Nat → List SlotData → Option Nat → Bool → Option Nat × Bool
  | _, [], slot, lr => (slot, lr)
  | i, sd :: rest, slot, lr =>
    let lr1 := if sd.flags &&& CKF_LOGIN_REQUIRED ≠ 0 then true else lr
    let slot1 := if tokenLabel = none then some i else slot
    if some (pyStrip (fieldOf sd.tokenFields "label")) = tokenLabel then
      (some i, lr1)
    else legacyLoop tokenLabel (i + 1) rest slot1 lr1

/-! ## Specification-side definitions

These follow the spec's words and are compared against the embedded code
in the theorems below. -/

/-- A location attribute name recognized as a slot or token field. -/
def tagRecognized (tag : String) : Bool :=
  (alookup CK_SLOT_INFO_translation tag).isSome ||
  (alookup CK_TOKEN_INFO_translation tag).isSome

/-- The locator carries at least one slot-or-token-recognized location
attribute. -/
def hasRecognizedTag (location : List (String × String)) : Bool :=
  location.any fun kv => tagRecognized kv.1

/-- Compare a location attribute value against the field a translation
lookup names, stripped; a name absent from the table imposes no
constraint. -/
def checkField (fields : List (String × String)) (v : String) :
    Option String → Bool
  | some ck => v = pyStrip (fieldOf fields ck)
  | none => true

/-- One location attribute matches a slot: a slot-recognized name must
equal the stripped slot field and a token-recognized name the stripped
token field (an unrecognized name imposes no constraint). -/
def tagMatches (sd : SlotData) (kv : String × String) : Bool :=
  checkField sd.slotFields kv.2 (alookup CK_SLOT_INFO_translation kv.1) &&
  checkField sd.tokenFields kv.2 (alookup CK_TOKEN_INFO_translation kv.1)

/-- All recognized location attributes match the slot. -/
def slotMatchesAll (location : List (String × String)) (sd : SlotData) :
    Bool :=
  location.all (tagMatches sd)

/-- The token's login-required flag bit. -/
def loginFlagged (sd : SlotData) : Bool :=
  sd.flags &&& CKF_LOGIN_REQUIRED ≠ 0

/-- Spec §4.3 step 3: the first (earliest enumerated, numbering from `i`)
slot for which all recognized location attributes match. -/
def firstMatchFrom (location : List (String × String)) :
    Nat → List SlotData → Option (Nat × SlotData)
  | _, [] => none
  | i, sd :: rest =>
    if slotMatchesAll location sd then some (i, sd)
    else firstMatchFrom location (i + 1) rest

/-- The open-session count `get_session` actually leaves behind for each
outcome: only the session-attribute-mismatch path closes the session
before raising; both login failure paths leak the open session. -/
def expectedOpenCount : Except GErr (Option Nat) → Nat
  | .ok none => 0
  | .ok (some _) => 1
  | .error .libraryMismatch => 0
  | .error .sessionAttributeMismatch => 0
  | .error .loginRequiredNoPin => 1
  | .error .loginFailure => 1

/-- The `keyid` value `get_private_key` echoes on its fall-through return:
the UTF-8 bytes of the last `id` attribute of the locator, if any. -/
def pvtLocatorId (location : List (String × String)) : Option (List Nat) :=
  (location.reverse.find? (fun kv => kv.1 = "id")).map
    (fun kv => utf8Bytes kv.2)

/-- The `label` value `get_private_key` echoes on its fall-through return:
the last `object` attribute of the locator, if any. -/
def pvtLocatorLabel (location : List (String × String)) : Option AttrVal :=
  (location.reverse.find? (fun kv => kv.1 = "object")).map
    (fun kv => AttrVal.str kv.2)

/-! ## Concrete fixtures used by counterexamples and witnesses -/

/-- A device with a single login-required token labelled `"TokA "`
(padded with a blank, as real tokens pad their fixed-width labels). -/
def devLoginLeak : Device :=
  ⟨[], [⟨[], [("label", "TokA ")], CKF_LOGIN_REQUIRED, [], true⟩]⟩

/-- A device where slot 0's token requires login but is labelled `"X"`,
and slot 1's token is labelled `"A"` and does not require login. -/
def devTwoSlots : Device :=
  ⟨[], [⟨[], [("label", "X")], CKF_LOGIN_REQUIRED, [], true⟩,
        ⟨[], [("label", "A")], 0, [], true⟩]⟩

/-- Two token objects that both carry the label `"k"`, with distinct
handles, ids and key types. -/
def keyObjA : PKObject :=
  ⟨7, [(CKA_LABEL, .str "k"), (CKA_ID, .bytes [9]),
       (CKA_KEY_TYPE, .num 0)]⟩

def keyObjB : PKObject :=
  ⟨8, [(CKA_LABEL, .str "k"), (CKA_ID, .bytes [10]),
       (CKA_KEY_TYPE, .num 1)]⟩

/-- A session whose object store holds `keyObjA` then `keyObjB` in device
enumeration order. -/
def twoKeySession : ObjSession := ⟨[keyObjA, keyObjB]⟩

/-- A public-key object asserting encrypt and verify but not wrap or
verify-recover. -/
def publicKeyObject : PKObject :=
  ⟨3, [(CKA_CLASS, .num CKO_PUBLIC_KEY), (CKA_ENCRYPT, .bool true),
       (CKA_VERIFY, .bool true), (CKA_WRAP, .bool false),
       (CKA_VERIFY_RECOVER, .bool false)]⟩

/-! # Theorems -/

/-! ## Parser lemmas -/

theorem pyFind_nil (c : Char) : pyFind [] c = -1 := rfl

theorem length_pySliceFrom_lt (rest : List Char) (a : Int)
    (ha : 0 ≤ a) (hne : rest ≠ []) :
    (pySliceFrom rest (a + 1)).length < rest.length := by
  simp only [pySliceFrom, List.length_drop, pyIdx]
  split
  · omega
  · have : 0 < rest.length := List.length_pos.mpr hne
    omega

/-- Any fuel exceeding the length of the remaining text yields the same
result: the loop consumes at least one character per iteration. -/
theorem pairLoopAux_fuel (err : ParseErr) :
    ∀ (f1 f2 : Nat) (m : List (String × String)) (rest : List Char),
      rest.length < f1 → rest.length < f2 →
      pairLoopAux err f1 m rest = pairLoopAux err f2 m rest := by
  intro f1
  induction f1 with
  | zero => intro f2 m rest h1 h2; omega
  | succ f ih =>
    intro f2 m rest h1 h2
    cases f2 with
    | zero => omega
    | succ f2' =>
      by_cases hc : 0 < pyFind rest ';' ∧ pyFind rest ';' < pyFind rest '='
      · simp only [pairLoopAux, if_pos hc]
      · by_cases hd : pyFind rest ';' < 0
        · simp only [pairLoopAux, if_neg hc, if_pos hd]
        · simp only [pairLoopAux, if_neg hc, if_neg hd]
          have hne : rest ≠ [] := by
            intro hnil
            subst hnil
            exact hd (by decide)
          have hlt := length_pySliceFrom_lt rest (pyFind rest ';')
            (by omega) hne
          exact ih _ _ _ (by omega) (by omega)

/-! ## C2 -/

/-- C2 counterexample: the claim says `parse "pkcs11:token=A;id"` fails
with `MalformedLocator`; in fact it succeeds, mis-splitting the bare
trailing attribute into the pair `("i", "id")`. -/
theorem C2_parse_no_eq_counterexample :
    parse "pkcs11:token=A;id" =
      .ok ⟨[("token", "A"), ("i", "id")], []⟩ ∧
    ∀ e : ParseErr, parse "pkcs11:token=A;id" ≠ .error e := by
  refine ⟨rfl, ?_⟩
  intro e h
  rw [show parse "pkcs11:token=A;id" =
    .ok ⟨[("token", "A"), ("i", "id")], []⟩ from rfl] at h
  exact Except.noConfusion h

/-- C2 amended: the pair loop raises `MalformedLocator` exactly on a `;`
at a positive index strictly before a `=` of the remaining text (which
requires a `=` to be present after the `;`); a trailing attribute with no
`=` is not an error — `b = -1` makes `rest[0:b]` all but the last
character and `rest[b+1:]` the whole rest, so `"pkcs11:token=A;id"`
parses successfully with the garbage pair `("i", "id")`. -/
theorem C2_parse_semicolon_before_eq :
    (∀ (e : ParseErr) (m : List (String × String)) (rest : List Char),
        0 < pyFind rest ';' → pyFind rest ';' < pyFind rest '=' →
        pairLoop e m rest = .error e) ∧
    parse "pkcs11:token=A;id" = .ok ⟨[("token", "A"), ("i", "id")], []⟩ := by
  constructor
  · intro e m rest h1 h2
    simp only [pairLoop, pairLoopAux, if_pos (And.intro h1 h2)]
  · rfl

/-- Witness for the amended C2 theorem at the remaining text `"a;b=c"`. -/
theorem C2_parse_semicolon_before_eq_witness :
    0 < pyFind "a;b=c".data ';' ∧
    pyFind "a;b=c".data ';' < pyFind "a;b=c".data '=' ∧
    pairLoop .badLocation [] "a;b=c".data = .error .badLocation :=
  ⟨by decide, by decide,
    C2_parse_semicolon_before_eq.1 .badLocation [] "a;b=c".data
      (by decide) (by decide)⟩

/-! ## C9 -/

/-- C9: parsing the well-formed locator
`"pkcs11:token=TokenA;object=Key%20One;id=%01%02"` yields exactly the
location map `{token ↦ "TokenA", object ↦ "Key One", id ↦ "\x01\x02"}`,
each value percent-decoded exactly once, and an empty query map. -/
theorem C9_parse_round_trip :
    parse "pkcs11:token=TokenA;object=Key%20One;id=%01%02" =
      .ok ⟨[("token", "TokenA"), ("object", "Key One"),
            ("id", "\x01\x02")], []⟩ := by
  rfl

/-! ## C1 -/

/-- C1 counterexample: with login required, no `pin-value` and no
interactive PIN, `get_session` raises `LoginRequiredNoPin` — but the
open-session count stays at 1, not 0: the `raise` at line 214 of
`pkcs11_URI.py` is not preceded by `closeSession`, so the session opened
at line 181 leaks. -/
theorem C1_session_leak_counterexample :
    get_session devLoginLeak ⟨[("token", "TokA")], []⟩ true none =
      ⟨.error .loginRequiredNoPin, 1, false, true⟩ ∧
    (get_session devLoginLeak ⟨[("token", "TokA")], []⟩
      true none).openCount ≠ 0 :=
  ⟨rfl, by decide⟩

/-- C1 amended: the opened session is closed before the error propagates
only on the session-attribute-mismatch path; the `LoginRequiredNoPin` and
`LoginFailure` paths leave the session open (count 1), as does success;
no-slot and library-mismatch outcomes never opened one. -/
theorem C1_open_count_by_outcome (dev : Device) (uri : PKCS11URI)
    (normUser : Bool) (interactivePin : Option String) :
    (get_session dev uri normUser interactivePin).openCount =
      expectedOpenCount
        (get_session dev uri normUser interactivePin).outcome := by
  unfold get_session
  split
  · rfl
  · split
    · rfl
    · split
      · rfl
      · dsimp only
        split
        · split
          · split <;> rfl
          · rfl
        · rfl

/-! ## Slot-selection lemmas (for C5 and C10) -/

/-- The inner attribute loop computes: if every recognized attribute
matches, `found` is raised when any attribute is recognized and the slot
is selected; the first mismatching recognized attribute breaks with the
slot cleared. -/
theorem tagLoop_char (cur : Nat × SlotData) (loc : List (String × String)) :
    ∀ (found : Bool) (slot : Option (Nat × SlotData)),
      tagLoop cur loc found slot =
        if slotMatchesAll loc cur.2 then
          (found || hasRecognizedTag loc,
           if hasRecognizedTag loc then some cur else slot)
        else (true, none) := by
  induction loc with
  | nil =>
    intro found slot
    simp [tagLoop, slotMatchesAll, hasRecognizedTag]
  | cons kv rest ih =>
    intro found slot
    simp only [slotMatchesAll, hasRecognizedTag, List.all_cons,
      List.any_cons] at ih ⊢
    rcases hA : alookup CK_SLOT_INFO_translation kv.1 with _ | ck
    · rcases hB : alookup CK_TOKEN_INFO_translation kv.1 with _ | ck2
      · have hm : tagMatches cur.2 kv = true := by
          simp [tagMatches, hA, hB, checkField]
        have hr : tagRecognized kv.1 = false := by
          simp [tagRecognized, hA, hB]
        simp only [tagLoop, tagStep, hA, hB, tagStepSlot, tagStepToken]
        rw [ih]
        simp only [hm, hr, Bool.true_and, Bool.false_or]
      · by_cases hv : kv.2 = pyStrip (fieldOf cur.2.tokenFields ck2)
        · have hm : tagMatches cur.2 kv = true := by
            simp [tagMatches, hA, hB, checkField, hv]
          have hr : tagRecognized kv.1 = true := by
            simp [tagRecognized, hB]
          simp only [tagLoop, tagStep, hA, hB, tagStepSlot, tagStepToken,
            hv, ne_eq, not_true_eq_false, if_false]
          rw [ih]
          simp only [hm, hr]
          rcases found <;>
            rcases hall : rest.all (tagMatches cur.2) with _ | _ <;>
              (try simp only [ite_self]) <;> rfl
        · have hm : tagMatches cur.2 kv = false := by
            simp [tagMatches, hA, hB, checkField, hv]
          simp only [tagLoop, tagStep, hA, hB, tagStepSlot, tagStepToken,
            hv, ne_eq, not_false_eq_true, if_true]
          simp only [hm, Bool.false_and]
          rfl
    · by_cases hv : kv.2 = pyStrip (fieldOf cur.2.slotFields ck)
      · rcases hB : alookup CK_TOKEN_INFO_translation kv.1 with _ | ck2
        · have hm : tagMatches cur.2 kv = true := by
            simp [tagMatches, hA, hB, checkField, hv]
          have hr : tagRecognized kv.1 = true := by
            simp [tagRecognized, hA]
          simp only [tagLoop, tagStep, hA, hB, tagStepSlot, tagStepToken,
            hv, ne_eq, not_true_eq_false, if_false]
          rw [ih]
          simp only [hm, hr]
          rcases found <;>
            rcases hall : rest.all (tagMatches cur.2) with _ | _ <;>
              (try simp only [ite_self]) <;> rfl
        · by_cases hv2 : kv.2 = pyStrip (fieldOf cur.2.tokenFields ck2)
          · have hv3 : pyStrip (fieldOf cur.2.slotFields ck) =
                pyStrip (fieldOf cur.2.tokenFields ck2) := hv.symm.trans hv2
            have hm : tagMatches cur.2 kv = true := by
              simp [tagMatches, hA, hB, checkField, hv, hv2, hv3]
            have hr : tagRecognized kv.1 = true := by
              simp [tagRecognized, hA]
            simp only [tagLoop, tagStep, hA, hB, tagStepSlot, tagStepToken,
              hv, hv3, ne_eq, not_true_eq_false, if_false]
            rw [ih]
            simp only [hm, hr]
            rcases found <;>
              rcases hall : rest.all (tagMatches cur.2) with _ | _ <;>
                (try simp only [ite_self]) <;> rfl
          · have hv4 : ¬ pyStrip (fieldOf cur.2.slotFields ck) =
                pyStrip (fieldOf cur.2.tokenFields ck2) :=
              fun h => hv2 (hv.trans h)
            have hm : tagMatches cur.2 kv = false := by
              simp [tagMatches, hA, hB, checkField, hv, hv4]
            simp only [tagLoop, tagStep, hA, hB, tagStepSlot, tagStepToken,
              hv, ne_eq, hv4, not_false_eq_true, if_true]
            simp only [hm, Bool.false_and]
            rfl
      · have hm : tagMatches cur.2 kv = false := by
          simp [tagMatches, hA, checkField, hv]
        simp only [tagLoop, tagStep, hA, tagStepSlot, tagStepToken, hv,
          ne_eq, not_false_eq_true, if_true]
        simp only [hm, Bool.false_and]
        rfl

theorem firstMatchFrom_start_le (loc : List (String × String)) :
    ∀ (l : List SlotData) (i : Nat) (sel : Nat × SlotData),
      firstMatchFrom loc i l = some sel → i ≤ sel.1 := by
  intro l
  induction l with
  | nil => intro i sel h; simp [firstMatchFrom] at h
  | cons sd rest ih =>
    intro i sel h
    by_cases hm : slotMatchesAll loc sd = true
    · simp only [firstMatchFrom, hm, if_true] at h
      cases h
      simp
    · simp only [firstMatchFrom, hm, if_false] at h
      have := ih (i + 1) sel h
      omega

theorem slotLoop_char (loc : List (String × String))
    (h : hasRecognizedTag loc = true) :
    ∀ (slots : List SlotData) (i : Nat) (lr : Bool),
      slotLoop loc i slots none lr =
        match firstMatchFrom loc i slots with
        | some sel =>
          (some sel, lr || (slots.take (sel.1 - i + 1)).any loginFlagged)
        | none => (none, lr || slots.any loginFlagged) := by
  intro slots
  induction slots with
  | nil => intro i lr; simp [slotLoop, firstMatchFrom]
  | cons sd rest ih =>
    intro i lr
    simp only [slotLoop]
    rw [tagLoop_char]
    dsimp only
    have hlr1 : (if sd.flags &&& CKF_LOGIN_REQUIRED ≠ 0 then true else lr) =
        (lr || loginFlagged sd) := by
      by_cases hf : sd.flags &&& CKF_LOGIN_REQUIRED ≠ 0
      · simp [hf, loginFlagged]
      · simp [hf, loginFlagged]
    rw [hlr1]
    by_cases hm : slotMatchesAll loc sd = true
    · rw [if_pos hm]
      simp only [h, Bool.false_or, eq_self_iff_true, if_true]
      simp only [firstMatchFrom]
      rw [if_pos hm]
      simp only [Nat.sub_self, List.take_succ_cons, List.take_zero,
        List.any_cons, List.any_nil, Bool.or_false]
    · rw [if_neg hm]
      dsimp only
      rw [ih]
      simp only [firstMatchFrom]
      rw [if_neg hm]
      rcases hf2 : firstMatchFrom loc (i + 1) rest with _ | sel
      · simp only [List.any_cons, Bool.or_assoc]
        rfl
      · have hle := firstMatchFrom_start_le loc rest (i + 1) sel hf2
        have harith : sel.1 - i + 1 = (sel.1 - (i + 1) + 1) + 1 := by omega
        simp only []
        rw [harith]
        simp only [List.take_succ_cons, List.any_cons, Bool.or_assoc]
        rfl

theorem firstMatchFrom_some (loc : List (String × String)) :
    ∀ (l : List SlotData) (i j : Nat) (sd : SlotData),
      firstMatchFrom loc i l = some (j, sd) →
      i ≤ j ∧ l[j - i]? = some sd ∧ slotMatchesAll loc sd = true ∧
        ∀ (k : Nat) (sdk : SlotData), k < j - i → l[k]? = some sdk →
          slotMatchesAll loc sdk = false := by
  intro l
  induction l with
  | nil => intro i j sd hh; simp [firstMatchFrom] at hh
  | cons s0 rest ih =>
    intro i j sd hh
    by_cases hm : slotMatchesAll loc s0 = true
    · simp only [firstMatchFrom] at hh
      rw [if_pos hm] at hh
      injection hh with hh2
      injection hh2 with h1 h2
      subst h1
      subst h2
      refine ⟨le_refl i, ?_, hm, ?_⟩
      · simp
      · intro k sdk hk hgetk
        exact absurd hk (by omega)
    · simp only [firstMatchFrom] at hh
      rw [if_neg hm] at hh
      obtain ⟨hle, hget, hmatch, hmin⟩ := ih (i + 1) j sd hh
      refine ⟨by omega, ?_, hmatch, ?_⟩
      · have hji : j - i = (j - (i + 1)) + 1 := by omega
        rw [hji]
        simpa using hget
      · intro k sdk hk hgetk
        cases k with
        | zero =>
          simp only [List.getElem?_cons_zero, Option.some.injEq] at hgetk
          subst hgetk
          simpa using hm
        | succ k2 =>
          have hk2 : k2 < j - (i + 1) := by omega
          apply hmin k2 sdk hk2
          simpa using hgetk

/-! ## C5 -/

/-- C5: slot selection in `get_session` is first-match-wins over
enumeration order.  When the locator has at least one slot-or-token
recognized attribute, the slot loop selects exactly the first enumerated
slot for which all recognized attributes match (`firstMatchFrom`), which
is characterized element-wise: the selected slot matches and every
earlier-enumerated slot fails to match.  In particular, on the two-slot
device where only slot 1's token label matches `token = "A"`, slot 1 is
selected although slot 0 is enumerated first. -/
theorem C5_first_match_wins :
    (∀ (loc : List (String × String)) (slots : List SlotData),
        hasRecognizedTag loc = true →
        (slotLoop loc 0 slots none false).1 = firstMatchFrom loc 0 slots ∧
        ∀ (j : Nat) (sd : SlotData),
          firstMatchFrom loc 0 slots = some (j, sd) →
          slots[j]? = some sd ∧ slotMatchesAll loc sd = true ∧
          ∀ (k : Nat) (sdk : SlotData), k < j → slots[k]? = some sdk →
            slotMatchesAll loc sdk = false) ∧
    (slotLoop [("token", "A")] 0 devTwoSlots.slots none false).1 =
      some (1, devTwoSlots.slots.getD 1 default) := by
  constructor
  · intro loc slots hrec
    constructor
    · rw [slotLoop_char loc hrec]
      rcases hf : firstMatchFrom loc 0 slots with _ | sel <;> rfl
    · intro j sd hf
      obtain ⟨_, hget, hmatch, hmin⟩ :=
        firstMatchFrom_some loc slots 0 j sd hf
      refine ⟨by simpa using hget, hmatch, ?_⟩
      intro k sdk hk hgetk
      exact hmin k sdk (by omega) hgetk
  · rfl

/-- Witness for C5 on the two-slot device. -/
theorem C5_first_match_wins_witness :
    hasRecognizedTag [("token", "A")] = true ∧
    (slotLoop [("token", "A")] 0 devTwoSlots.slots none false).1 =
      firstMatchFrom [("token", "A")] 0 devTwoSlots.slots :=
  ⟨rfl,
    (C5_first_match_wins.1 [("token", "A")] devTwoSlots.slots rfl).1⟩

/-! ## C10 -/

/-- C10: the `login_required` decision of `get_session` is accumulated
across the enumeration: when a slot is selected, the flag returned equals
the disjunction of the login-required bits of all slots enumerated up to
and including it — not the selected slot's own bit.  Concretely, on
`devTwoSlots` (slot 0 requires login, selected slot 1 does not) a PIN is
demanded and `login` is invoked even though the selected slot's token does
not require login. -/
theorem C10_login_required_accumulated :
    (∀ (loc : List (String × String)) (slots : List SlotData)
        (j : Nat) (sd : SlotData) (lr : Bool),
        hasRecognizedTag loc = true →
        slotLoop loc 0 slots none false = (some (j, sd), lr) →
        lr = (slots.take (j + 1)).any loginFlagged) ∧
    (get_session devTwoSlots ⟨[("token", "A")], [("pin-value", "12")]⟩
        true none = ⟨.ok (some 1), 1, true, true⟩ ∧
      loginFlagged (devTwoSlots.slots.getD 1 default) = false) := by
  constructor
  · intro loc slots j sd lr hrec hrun
    rw [slotLoop_char loc hrec] at hrun
    rcases hf : firstMatchFrom loc 0 slots with _ | sel <;> rw [hf] at hrun
    · exact absurd (congrArg Prod.fst hrun) (by simp)
    · simp only [Prod.mk.injEq, Option.some.injEq] at hrun
      obtain ⟨h1, h2⟩ := hrun
      subst h1
      rw [← h2]
      simp
  · exact ⟨rfl, rfl⟩

/-- Witness for C10 on the two-slot device: the selected slot has index 1
and the returned flag equals the disjunction over the first two slots. -/
theorem C10_login_required_accumulated_witness :
    hasRecognizedTag [("token", "A")] = true ∧
    true = ((devTwoSlots.slots.take (1 + 1)).any loginFlagged) :=
  ⟨rfl,
    C10_login_required_accumulated.1 [("token", "A")] devTwoSlots.slots 1
      (devTwoSlots.slots.getD 1 default) true rfl rfl⟩

/-! ## C4 -/

/-- With `token_label = None` the legacy loop never breaks (the stripped
label never equals `None`), overwrites `slot` on every iteration, and so
ends holding the last enumerated slot. -/
theorem legacyLoop_tokenless_last :
    ∀ (slots : List SlotData) (i : Nat) (slot0 : Option Nat) (lr0 : Bool),
      slots ≠ [] →
      (legacyLoop none i slots slot0 lr0).1 =
        some (i + slots.length - 1) := by
  intro slots
  induction slots with
  | nil => intro i s0 l0 hne; exact absurd rfl hne
  | cons sd rest ih =>
    intro i s0 l0 hne
    simp only [legacyLoop]
    rw [if_neg (by simp)]
    cases rest with
    | nil => simp [legacyLoop]
    | cons sd2 rest2 =>
      rw [ih (i + 1) _ _ (by simp)]
      congr 1
      simp only [List.length_cons]
      omega

/-- C4 counterexample: the claim says the legacy (non-locator) `open`
paths select the first enumerated slot when `token_label` is `None`; on a
two-slot enumeration the loop in fact ends on slot 1 (the last), because
`slot = sl` is re-assigned on every iteration and the label comparison
against `None` never breaks. -/
theorem C4_last_slot_counterexample :
    (legacyLoop none 0 devTwoSlots.slots none false).1 = some 1 ∧
    (legacyLoop none 0 devTwoSlots.slots none false).1 ≠ some 0 :=
  ⟨rfl, by decide⟩

/-- C4 amended: in the legacy session paths (`PKCS11KeySession.open` and
`PKCS11AdminSession.open`), when no token-label constraint is given the
selected slot is the **last** enumerated slot, for every non-empty slot
enumeration. -/
theorem C4_tokenless_selects_last (slots : List SlotData)
    (hne : slots ≠ []) :
    (legacyLoop none 0 slots none false).1 = some (slots.length - 1) := by
  have h := legacyLoop_tokenless_last slots 0 none false hne
  simpa using h

/-- Witness for amended C4 on the two-slot device. -/
theorem C4_tokenless_selects_last_witness :
    devTwoSlots.slots ≠ [] ∧
    (legacyLoop none 0 devTwoSlots.slots none false).1 =
      some (devTwoSlots.slots.length - 1) :=
  ⟨by simp [devTwoSlots], C4_tokenless_selects_last devTwoSlots.slots
    (by simp [devTwoSlots])⟩

/-! ## C3 -/

theorem pvtStep_keyid (acc : PvtAcc) (kv : String × String) :
    (pvtStep acc kv).keyid =
      if kv.1 = "id" then some (utf8Bytes kv.2) else acc.keyid := by
  by_cases h1 : kv.1 = "object"
  · simp [pvtStep, PKCS11_key_translation, h1]
  · by_cases h2 : kv.1 = "id"
    · simp [pvtStep, PKCS11_key_translation, h1, h2]
    · by_cases h3 : kv.1 = "type"
      · simp [pvtStep, PKCS11_key_translation, h1, h2, h3]
        rcases alookup PKCS11_type_translation "private" with _ | v <;> simp
      · simp [pvtStep, PKCS11_key_translation, h1, h2, h3]

theorem pvtStep_label (acc : PvtAcc) (kv : String × String) :
    (pvtStep acc kv).label =
      if kv.1 = "object" then some (.str kv.2) else acc.label := by
  by_cases h1 : kv.1 = "object"
  · simp [pvtStep, PKCS11_key_translation, h1]
  · by_cases h2 : kv.1 = "id"
    · simp [pvtStep, PKCS11_key_translation, h1, h2]
    · by_cases h3 : kv.1 = "type"
      · simp [pvtStep, PKCS11_key_translation, h1, h2, h3]
        rcases alookup PKCS11_type_translation "private" with _ | v <;> simp
      · simp [pvtStep, PKCS11_key_translation, h1, h2, h3]

/-- The `keyid` echoed by the template-construction loop is exactly the
UTF-8 bytes of the last `id` attribute processed (the loop overwrites on
each occurrence), falling back to the incoming accumulator. -/
theorem foldl_pvtStep_keyid (loc : List (String × String)) :
    ∀ acc : PvtAcc,
      (loc.foldl pvtStep acc).keyid =
        (loc.reverse.find? (fun kv => kv.1 = "id")).elim acc.keyid
          (fun kv => some (utf8Bytes kv.2)) := by
  induction loc using List.reverseRecOn with
  | nil => intro acc; simp
  | append_singleton l kv ih =>
    intro acc
    rw [List.foldl_append]
    simp only [List.foldl_cons, List.foldl_nil]
    rw [pvtStep_keyid, List.reverse_append]
    simp only [List.reverse_cons, List.reverse_nil, List.nil_append,
      List.singleton_append]
    by_cases hid : kv.1 = "id"
    · simp [List.find?_cons, hid]
    · simp [List.find?_cons, hid, ih acc]

/-- Same for the echoed `label`: the last `object` attribute wins. -/
theorem foldl_pvtStep_label (loc : List (String × String)) :
    ∀ acc : PvtAcc,
      (loc.foldl pvtStep acc).label =
        (loc.reverse.find? (fun kv => kv.1 = "object")).elim acc.label
          (fun kv => some (.str kv.2)) := by
  induction loc using List.reverseRecOn with
  | nil => intro acc; simp
  | append_singleton l kv ih =>
    intro acc
    rw [List.foldl_append]
    simp only [List.foldl_cons, List.foldl_nil]
    rw [pvtStep_label, List.reverse_append]
    simp only [List.reverse_cons, List.reverse_nil, List.nil_append,
      List.singleton_append]
    by_cases hob : kv.1 = "object"
    · simp [List.find?_cons, hob]
    · simp [List.find?_cons, hob, ih acc]

theorem elim_none_eq_map {α β : Type} (o : Option α) (f : α → β) :
    o.elim none (fun a => some (f a)) = o.map f := by
  cases o <;> rfl

theorem pvtAccFinal_keyid (loc : List (String × String)) :
    (pvtAccFinal loc).keyid = pvtLocatorId loc := by
  have h := foldl_pvtStep_keyid loc ⟨[], false, none, none⟩
  unfold pvtAccFinal
  dsimp only
  by_cases hf : (loc.foldl pvtStep ⟨[], false, none, none⟩).found = true
  · rw [if_pos hf, h]
    unfold pvtLocatorId
    exact elim_none_eq_map _ _
  · rw [if_neg hf]
    have hkeep :
        (match PKCS11_key_translation "type" with
          | some (key, operation) =>
            match operation "private" with
            | some val =>
              { loc.foldl pvtStep ⟨[], false, none, none⟩ with
                template :=
                  (loc.foldl pvtStep ⟨[], false, none, none⟩).template ++
                    [(key, val)] }
            | none => loc.foldl pvtStep ⟨[], false, none, none⟩
          | none => loc.foldl pvtStep ⟨[], false, none, none⟩).keyid =
        (loc.foldl pvtStep ⟨[], false, none, none⟩).keyid := rfl
    rw [hkeep, h]
    unfold pvtLocatorId
    exact elim_none_eq_map _ _

theorem pvtAccFinal_label (loc : List (String × String)) :
    (pvtAccFinal loc).label = pvtLocatorLabel loc := by
  have h := foldl_pvtStep_label loc ⟨[], false, none, none⟩
  unfold pvtAccFinal
  dsimp only
  by_cases hf : (loc.foldl pvtStep ⟨[], false, none, none⟩).found = true
  · rw [if_pos hf, h]
    unfold pvtLocatorLabel
    exact elim_none_eq_map _ _
  · rw [if_neg hf]
    have hkeep :
        (match PKCS11_key_translation "type" with
          | some (key, operation) =>
            match operation "private" with
            | some val =>
              { loc.foldl pvtStep ⟨[], false, none, none⟩ with
                template :=
                  (loc.foldl pvtStep ⟨[], false, none, none⟩).template ++
                    [(key, val)] }
            | none => loc.foldl pvtStep ⟨[], false, none, none⟩
          | none => loc.foldl pvtStep ⟨[], false, none, none⟩).label =
        (loc.foldl pvtStep ⟨[], false, none, none⟩).label := rfl
    rw [hkeep, h]
    unfold pvtLocatorLabel
    exact elim_none_eq_map _ _

/-- C3 counterexample: the claim says a zero-match `get_private_key`
returns `(none, none, none, none)` regardless of the locator's object/id
attributes; with the locator `{id: "A"}` and an empty object store the
first component is the locator-echoed `bytes("A")`, not `none`. -/
theorem C3_zero_match_counterexample :
    get_private_key ⟨[("id", "A")], []⟩ (some ⟨[]⟩) =
      ⟨some [65], none, none, none, 0⟩ ∧
    (get_private_key ⟨[("id", "A")], []⟩ (some ⟨[]⟩)).keyid ≠ none :=
  ⟨rfl, by decide⟩

/-- C3 amended: on a zero-match object search (and likewise with no open
session), `get_private_key` returns `none` for the handle and key-type
components, emits no ambiguity warning, and echoes the locator's last
`id` / `object` attribute values (each `none` when that attribute is
absent) in the first two components. -/
theorem C3_zero_match_echoes_locator (uri : PKCS11URI) (s : ObjSession)
    (hz : s.objects.filter (objMatches (pvtAccFinal uri.location).template)
      = []) :
    get_private_key uri (some s) =
      ⟨pvtLocatorId uri.location, pvtLocatorLabel uri.location,
       none, none, 0⟩ := by
  unfold get_private_key
  dsimp only
  rw [hz]
  have hk := pvtAccFinal_keyid uri.location
  have hl := pvtAccFinal_label uri.location
  by_cases ht : 0 < (pvtAccFinal uri.location).template.length
  · rw [if_pos ht, hk, hl]
  · rw [if_neg ht, hk, hl]

/-- Witness for amended C3: locator `{id: "A", object: "K"}` against an
empty object store. -/
theorem C3_zero_match_echoes_locator_witness :
    (([] : List PKObject).filter
      (objMatches (pvtAccFinal [("id", "A"), ("object", "K")]).template)
        = []) ∧
    get_private_key ⟨[("id", "A"), ("object", "K")], []⟩ (some ⟨[]⟩) =
      ⟨pvtLocatorId [("id", "A"), ("object", "K")],
       pvtLocatorLabel [("id", "A"), ("object", "K")], none, none, 0⟩ :=
  ⟨rfl, C3_zero_match_echoes_locator ⟨[("id", "A"), ("object", "K")], []⟩
    ⟨[]⟩ rfl⟩

/-! ## C6 -/

theorem pvtStep_template_mem (acc : PvtAcc) (kv : String × String)
    (x : Nat × AttrVal) (hx : x ∈ acc.template) :
    x ∈ (pvtStep acc kv).template := by
  unfold pvtStep
  dsimp only
  repeat' split
  all_goals first
    | exact hx
    | exact List.mem_append_left _ hx

theorem foldl_pvtStep_template_mem (loc : List (String × String)) :
    ∀ (acc : PvtAcc) (x : Nat × AttrVal), x ∈ acc.template →
      x ∈ (loc.foldl pvtStep acc).template := by
  induction loc with
  | nil => intro acc x hx; exact hx
  | cons kv rest ih =>
    intro acc x hx
    simp only [List.foldl_cons]
    exact ih _ _ (pvtStep_template_mem _ _ _ hx)

/-- Processing a `type` attribute always appends the forced private-key
class entry, whatever the attribute's own value was. -/
theorem pvtStep_type_adds (acc : PvtAcc) (v : String) :
    (CKA_CLASS, AttrVal.num CKO_PRIVATE_KEY) ∈
      (pvtStep acc ("type", v)).template := by
  show (CKA_CLASS, AttrVal.num CKO_PRIVATE_KEY) ∈
    acc.template ++ [(CKA_CLASS, AttrVal.num CKO_PRIVATE_KEY)]
  exact List.mem_append_right _ (by simp)

theorem pvtStep_found (acc : PvtAcc) (kv : String × String) :
    (pvtStep acc kv).found = (acc.found || kv.1 = "type") := by
  by_cases h1 : kv.1 = "object"
  · simp [pvtStep, PKCS11_key_translation, h1]
  · by_cases h2 : kv.1 = "id"
    · simp [pvtStep, PKCS11_key_translation, h1, h2]
    · by_cases h3 : kv.1 = "type"
      · simp [pvtStep, PKCS11_key_translation, h1, h2, h3]
        rcases alookup PKCS11_type_translation "private" with _ | w <;> simp
      · simp [pvtStep, PKCS11_key_translation, h1, h2, h3]

theorem foldl_found_imp_mem (loc : List (String × String)) :
    ∀ acc : PvtAcc, acc.found = false →
      (loc.foldl pvtStep acc).found = true →
      (CKA_CLASS, AttrVal.num CKO_PRIVATE_KEY) ∈
        (loc.foldl pvtStep acc).template := by
  induction loc with
  | nil =>
    intro acc h0 h1
    exact absurd h1 (by simp [h0])
  | cons kv rest ih =>
    intro acc h0 h1
    obtain ⟨k1, v⟩ := kv
    by_cases hty : k1 = "type"
    · subst hty
      simp only [List.foldl_cons]
      exact foldl_pvtStep_template_mem rest _ _ (pvtStep_type_adds acc v)
    · have hstep : (pvtStep acc (k1, v)).found = false := by
        rw [pvtStep_found]
        simp [h0, hty]
      simp only [List.foldl_cons] at h1 ⊢
      exact ih _ hstep h1

/-- C6: for every locator, the search template built by `get_private_key`
contains the forced class entry `(CKA_CLASS, CKO_PRIVATE_KEY)` — when a
`type` attribute is present its value is overridden with `"private"`, and
when absent the fallback at lines 278–284 appends the same entry. -/
theorem C6_private_class_forced (location : List (String × String)) :
    (CKA_CLASS, AttrVal.num CKO_PRIVATE_KEY) ∈
      (pvtAccFinal location).template := by
  unfold pvtAccFinal
  dsimp only
  by_cases hf :
      (location.foldl pvtStep ⟨[], false, none, none⟩).found = true
  · rw [if_pos hf]
    exact foldl_found_imp_mem location _ rfl hf
  · rw [if_neg hf]
    show (CKA_CLASS, AttrVal.num CKO_PRIVATE_KEY) ∈
      (location.foldl pvtStep ⟨[], false, none, none⟩).template ++
        [(CKA_CLASS, AttrVal.num CKO_PRIVATE_KEY)]
    exact List.mem_append_right _ (by simp)

/-! ## C7 -/

/-- C7: when the object search of `get_key` returns more than one match,
no error is raised — exactly one ambiguity warning is printed and the
first handle in device enumeration order is returned together with its
key type and its id re-read from the device. -/
theorem C7_ambiguous_first_match (uri : PKCS11URI) (s : ObjSession)
    (key o2 : PKObject) (rest : List PKObject)
    (ht : 0 < (buildKeyTemplate uri.location).length)
    (hf : s.objects.filter (objMatches (buildKeyTemplate uri.location)) =
      key :: o2 :: rest) :
    get_key uri (some s) =
      ⟨some (pyBytes (attrValue key CKA_ID)),
       some (attrValue key CKA_KEY_TYPE), some key.handle, 1⟩ := by
  unfold get_key
  dsimp only
  rw [if_pos ht, hf]
  simp only []
  congr 1
  simp

/-- Witness for C7: the locator `{object: "k"}` against the two-object
session returns the first object's data with exactly one warning. -/
theorem C7_ambiguous_first_match_witness :
    0 < (buildKeyTemplate [("object", "k")]).length ∧
    twoKeySession.objects.filter
      (objMatches (buildKeyTemplate [("object", "k")])) =
      keyObjA :: keyObjB :: [] ∧
    get_key ⟨[("object", "k")], []⟩ (some twoKeySession) =
      ⟨some (pyBytes (attrValue keyObjA CKA_ID)),
       some (attrValue keyObjA CKA_KEY_TYPE), some keyObjA.handle, 1⟩ :=
  ⟨by decide, rfl,
    C7_ambiguous_first_match ⟨[("object", "k")], []⟩ twoKeySession
      keyObjA keyObjB [] (by decide) rfl⟩

/-! ## C8 -/

/-- C8: `read_key_usage_from_key` on a private-key-class object whose
queried bits are decrypt = true, sign = false, unwrap = true,
sign-recover = true yields the record
`{crypt: true, sign: false, wrap: true, derive: as-read, recover: true}`
(for every value of the derive bit); and for every public-key-class
object the resulting record's `derive` field is `none`, because the
public-key attribute class has no derive entry. -/
theorem C8_capability_records :
    (∀ d : AttrVal,
        read_key_usage_from_key
          ⟨0, [(CKA_CLASS, .num CKO_PRIVATE_KEY), (CKA_DECRYPT, .bool true),
               (CKA_SIGN, .bool false), (CKA_UNWRAP, .bool true),
               (CKA_DERIVE, d), (CKA_SIGN_RECOVER, .bool true)]⟩ =
          .ok (some ⟨.bool true, .bool false, .bool true, some d,
            .bool true⟩)) ∧
    (∀ (o : PKObject) (u : PKCS11KeyUsage),
        alookup o.attrs CKA_CLASS = some (.num CKO_PUBLIC_KEY) →
        read_key_usage_from_key o = .ok (some u) → u.derive = none) := by
  constructor
  · intro d
    rfl
  · intro o u hclass hread
    have hpub : read_key_usage_from_key o =
        .ok (some ⟨(alookup o.attrs CKA_ENCRYPT).getD (.num 0),
          (alookup o.attrs CKA_VERIFY).getD (.num 0),
          (alookup o.attrs CKA_WRAP).getD (.num 0), none,
          (alookup o.attrs CKA_VERIFY_RECOVER).getD (.num 0)⟩) := by
      unfold read_key_usage_from_key
      rw [hclass]
      rfl
    rw [hpub] at hread
    simp only [Except.ok.injEq, Option.some.injEq] at hread
    subst hread
    rfl

/-- Witness for C8: the private-key record at derive-bit `true`, and the
public-key fixture whose derived record has `derive = none`. -/
theorem C8_capability_records_witness :
    read_key_usage_from_key
      ⟨0, [(CKA_CLASS, .num CKO_PRIVATE_KEY), (CKA_DECRYPT, .bool true),
           (CKA_SIGN, .bool false), (CKA_UNWRAP, .bool true),
           (CKA_DERIVE, .bool true), (CKA_SIGN_RECOVER, .bool true)]⟩ =
      .ok (some ⟨.bool true, .bool false, .bool true, some (.bool true),
        .bool true⟩) ∧
    alookup publicKeyObject.attrs CKA_CLASS = some (.num CKO_PUBLIC_KEY) ∧
    read_key_usage_from_key publicKeyObject =
      .ok (some ⟨.bool true, .bool true, .bool false, none,
        .bool false⟩) ∧
    (⟨.bool true, .bool true, .bool false, none,
      .bool false⟩ : PKCS11KeyUsage).derive = none :=
  ⟨C8_capability_records.1 (.bool true), rfl, rfl,
    C8_capability_records.2 publicKeyObject _ rfl rfl⟩
